import Mathlib

/-!
Verification of the data-shaping core of the `energyzero_better_gas_prices`
integration (`custom_components/energyzero_better_gas_prices`).

The embedding models the pure content of
`utils.round_monetary_value`, `coordinator.GasPriceData`,
`coordinator.EnergyZeroBetterGasPricesCoordinator._process_price_data` and the
response-handling part of `_async_update_data`:

* JSON numbers are modelled as exact rationals (`ℚ`).  The helper
  `round_monetary_value` converts its argument through `Decimal(str(value))`,
  i.e. it quantizes the exact decimal value of the input, which the rational
  model captures directly.
* A JSON object key that may be absent becomes an `Option` field; Python's
  `dict.get(key, default)` becomes `Option.getD`.
* `setattr(obj, f"{period}_...", v)` on the `GasPriceData` dataclass becomes a
  functional update keyed by the attribute-name string.
* The `aiohttp` request itself, the clock and the logger stay outside the
  model; `_async_update_data` is modelled as the function from the HTTP status
  code, the raw body text, the parsed JSON body and the current timestamp to
  either a raised exception or the returned record.
-/

namespace EnergyZero

/-- The quantization step of `utils.round_monetary_value`:
`Decimal.quantize(Decimal("0.01"), rounding=ROUND_HALF_UP)` applied to the
exact decimal value of the input — round to two decimal places, nearest value,
ties away from zero. -/
def quantize2HalfUp (q : ℚ) : ℚ :=
  if q < 0 then -((⌊-q * 100 + 1 / 2⌋ : ℚ) / 100)
  else ((⌊q * 100 + 1 / 2⌋ : ℚ) / 100)

/-- `utils.round_monetary_value(value, decimal_places=2)`: `None` yields
`None`; otherwise the value is quantized with `ROUND_HALF_UP`.  The body
always quantizes to the literal `Decimal("0.01")`, so `decimal_places` does
not influence the result. -/
def round_monetary_value (value : Option ℚ) (decimal_places : Nat) : Option ℚ :=
  match value with
  | none => none
  | some v => some (quantize2HalfUp v)

/-- One entry of an interval's `additionalCosts` list.  A field is `none`
when the corresponding JSON key is absent. -/
structure CostEntry where
  name : Option String
  priceExcl : Option ℚ
  priceIncl : Option ℚ

/-- One element of a period's `prices` list (the JSON key `from` is a Lean
keyword, hence the field name `fromTime`). -/
structure PriceInterval where
  energyPriceExcl : Option ℚ
  energyPriceIncl : Option ℚ
  fromTime : Option String
  till : Option String
  additionalCosts : Option (List CostEntry)

/-- A period sub-object (`current` or `next`) of the GraphQL `data` object:
only its `prices` key is consulted by the coordinator. -/
structure PriceData where
  prices : Option (List PriceInterval)

/-- The `GasPriceData` dataclass of `coordinator.py`; every field defaults to
`None`. -/
structure GasPriceData where
  current_market_price_excl : Option ℚ := none
  current_market_price_incl : Option ℚ := none
  current_energy_tax_excl : Option ℚ := none
  current_energy_tax_incl : Option ℚ := none
  current_purchasing_cost_excl : Option ℚ := none
  current_purchasing_cost_incl : Option ℚ := none
  current_total_price_excl : Option ℚ := none
  current_total_price_incl : Option ℚ := none
  next_market_price_excl : Option ℚ := none
  next_market_price_incl : Option ℚ := none
  next_energy_tax_excl : Option ℚ := none
  next_energy_tax_incl : Option ℚ := none
  next_purchasing_cost_excl : Option ℚ := none
  next_purchasing_cost_incl : Option ℚ := none
  next_total_price_excl : Option ℚ := none
  next_total_price_incl : Option ℚ := none
  current_from : Option String := none
  current_till : Option String := none
  next_from : Option String := none
  next_till : Option String := none
  last_updated : Option String := none

/-- `setattr(gas_price_data, attr, v)` for the sixteen monetary fields; the
source addresses them as `f"{period}_market_price_excl"` and so on.  An
attribute name outside the sixteen leaves the record unchanged (the callers
only ever produce these names). -/
def setMonetaryAttr (g : GasPriceData) (attr : String) (v : Option ℚ) : GasPriceData :=
  if attr = "current_market_price_excl" then { g with current_market_price_excl := v }
  else if attr = "current_market_price_incl" then { g with current_market_price_incl := v }
  else if attr = "current_energy_tax_excl" then { g with current_energy_tax_excl := v }
  else if attr = "current_energy_tax_incl" then { g with current_energy_tax_incl := v }
  else if attr = "current_purchasing_cost_excl" then { g with current_purchasing_cost_excl := v }
  else if attr = "current_purchasing_cost_incl" then { g with current_purchasing_cost_incl := v }
  else if attr = "current_total_price_excl" then { g with current_total_price_excl := v }
  else if attr = "current_total_price_incl" then { g with current_total_price_incl := v }
  else if attr = "next_market_price_excl" then { g with next_market_price_excl := v }
  else if attr = "next_market_price_incl" then { g with next_market_price_incl := v }
  else if attr = "next_energy_tax_excl" then { g with next_energy_tax_excl := v }
  else if attr = "next_energy_tax_incl" then { g with next_energy_tax_incl := v }
  else if attr = "next_purchasing_cost_excl" then { g with next_purchasing_cost_excl := v }
  else if attr = "next_purchasing_cost_incl" then { g with next_purchasing_cost_incl := v }
  else if attr = "next_total_price_excl" then { g with next_total_price_excl := v }
  else if attr = "next_total_price_incl" then { g with next_total_price_incl := v }
  else g

/-- `setattr(gas_price_data, attr, v)` for the four timestamp fields,
addressed as `f"{period}_from"` / `f"{period}_till"`. -/
def setTimestampAttr (g : GasPriceData) (attr : String) (v : Option String) : GasPriceData :=
  if attr = "current_from" then { g with current_from := v }
  else if attr = "current_till" then { g with current_till := v }
  else if attr = "next_from" then { g with next_from := v }
  else if attr = "next_till" then { g with next_till := v }
  else g

/-- The local accumulator of `_process_price_data`: the two running totals
and the four named cost buckets. -/
structure CostAcc where
  total_price_excl : ℚ
  total_price_incl : ℚ
  energy_tax_excl : ℚ
  energy_tax_incl : ℚ
  purchasing_cost_excl : ℚ
  purchasing_cost_incl : ℚ

/-- One iteration of the `for cost in price["additionalCosts"]` loop body:
the entry's prices (absent keys default to `0`) are added to the running
totals, and an entry named exactly `"Energy tax"` or `"Purchasing cost"`
overwrites the corresponding bucket. -/
def processCost (acc : CostAcc) (cost : CostEntry) : CostAcc :=
  let cost_name := cost.name.getD ""
  let cost_excl := cost.priceExcl.getD 0
  let cost_incl := cost.priceIncl.getD 0
  let acc1 := { acc with
    total_price_excl := acc.total_price_excl + cost_excl
    total_price_incl := acc.total_price_incl + cost_incl }
  if cost_name = "Energy tax" then
    { acc1 with energy_tax_excl := cost_excl, energy_tax_incl := cost_incl }
  else if cost_name = "Purchasing cost" then
    { acc1 with purchasing_cost_excl := cost_excl, purchasing_cost_incl := cost_incl }
  else acc1

/-- The accumulator state before the loop: totals start from the market
prices (`price.get("energyPriceExcl", 0)` — a missing market price counts as
`0` here), the four buckets start at `0`. -/
def initAcc (price : PriceInterval) : CostAcc :=
  { total_price_excl := price.energyPriceExcl.getD 0
    total_price_incl := price.energyPriceIncl.getD 0
    energy_tax_excl := 0
    energy_tax_incl := 0
    purchasing_cost_excl := 0
    purchasing_cost_incl := 0 }

/-- The accumulator state after the loop.  The loop is guarded by
`if price.get("additionalCosts"):`, so an absent or empty list leaves the
initial state (which a fold over the empty list also does). -/
def finalAcc (price : PriceInterval) : CostAcc :=
  match price.additionalCosts with
  | none => initAcc price
  | some [] => initAcc price
  | some costs => costs.foldl processCost (initAcc price)

/-- `EnergyZeroBetterGasPricesCoordinator._process_price_data`: shape one
period's price data into the `period`-named fields of `gas_price_data`.
Returns the updated record (the source mutates it in place). -/
def _process_price_data (price_data : Option PriceData) (period : String)
    (gas_price_data : GasPriceData) : GasPriceData :=
  match price_data with
  | none => gas_price_data
  | some pd =>
    match pd.prices with
    | none => gas_price_data
    | some [] => gas_price_data
    | some (price :: _) =>
      let g := setMonetaryAttr gas_price_data (period ++ "_market_price_excl")
        (round_monetary_value price.energyPriceExcl 2)
      let g := setMonetaryAttr g (period ++ "_market_price_incl")
        (round_monetary_value price.energyPriceIncl 2)
      let g := setTimestampAttr g (period ++ "_from") price.fromTime
      let g := setTimestampAttr g (period ++ "_till") price.till
      let acc := finalAcc price
      let g := setMonetaryAttr g (period ++ "_energy_tax_excl")
        (round_monetary_value (some acc.energy_tax_excl) 2)
      let g := setMonetaryAttr g (period ++ "_energy_tax_incl")
        (round_monetary_value (some acc.energy_tax_incl) 2)
      let g := setMonetaryAttr g (period ++ "_purchasing_cost_excl")
        (round_monetary_value (some acc.purchasing_cost_excl) 2)
      let g := setMonetaryAttr g (period ++ "_purchasing_cost_incl")
        (round_monetary_value (some acc.purchasing_cost_incl) 2)
      let g := setMonetaryAttr g (period ++ "_total_price_excl")
        (round_monetary_value (some acc.total_price_excl) 2)
      let g := setMonetaryAttr g (period ++ "_total_price_incl")
        (round_monetary_value (some acc.total_price_incl) 2)
      g

/-- The GraphQL `data` object, to the depth `_async_update_data` reads it:
the `current` and `next` period sub-objects (each may be JSON `null`). -/
structure ResponseData where
  current : Option PriceData
  next : Option PriceData

/-- The parsed JSON body of the HTTP response: an optional top-level
`errors` value (kept abstract as the text Python would interpolate into the
exception message) and an optional top-level `data` object. -/
structure ResponseBody where
  errors : Option String
  data : Option ResponseData

/-- The exception raised by `_async_update_data`, identified by what the
`Exception(...)` constructor call is given:
`Exception(f"Error fetching gas prices: {response.status}")`,
`Exception(f"GraphQL errors: {data['errors']}")` or
`Exception("No data in response")`. -/
inductive UpdateError where
  | fetchError (status : Nat)
  | graphQLErrors (errors : String)
  | noData

/-- The message string of each raised exception, as built by the f-strings in
`_async_update_data`. -/
def UpdateError.message : UpdateError → String
  | .fetchError status => "Error fetching gas prices: " ++ toString status
  | .graphQLErrors errors => "GraphQL errors: " ++ errors
  | .noData => "No data in response"

/-- The response-handling part of
`EnergyZeroBetterGasPricesCoordinator._async_update_data`: given the HTTP
`status`, the raw body `text`, the parsed JSON `body` and the timestamp `now`
taken at record construction, either raise (checked in source order: non-200
status, then top-level `errors`, then missing top-level `data`) or build the
record by processing both periods.  The raw body `text` is passed to the
logger only; it does not reach the raised exception. -/
def _async_update_data (status : Nat) (text : String) (body : ResponseBody)
    (now : String) : Except UpdateError GasPriceData :=
  if status ≠ 200 then
    .error (.fetchError status)
  else
    match body.errors with
    | some errs => .error (.graphQLErrors errs)
    | none =>
      match body.data with
      | none => .error .noData
      | some d =>
        let gas_price_data : GasPriceData := { last_updated := some now }
        let gas_price_data := _process_price_data d.current "current" gas_price_data
        let gas_price_data := _process_price_data d.next "next" gas_price_data
        .ok gas_price_data

/-- Spec-side reading of "the exact sum of every `additionalCosts` entry's
`priceExcl`". -/
def costsExclSum (costs : List CostEntry) : ℚ :=
  (costs.map (fun c => c.priceExcl.getD 0)).sum

/-- Spec-side reading of "the exact sum of every `additionalCosts` entry's
`priceIncl`". -/
def costsInclSum (costs : List CostEntry) : ℚ :=
  (costs.map (fun c => c.priceIncl.getD 0)).sum

/-- Spec-side reading of "last match wins": the `priceExcl` of the last entry
named exactly `nm`, or `dflt` when no entry matches. -/
def lastNamedExcl (nm : String) (costs : List CostEntry) (dflt : ℚ) : ℚ :=
  match (costs.filter (fun c => c.name.getD "" = nm)).getLast? with
  | some c => c.priceExcl.getD 0
  | none => dflt

/-- Spec-side reading of "last match wins": the `priceIncl` of the last entry
named exactly `nm`, or `dflt` when no entry matches. -/
def lastNamedIncl (nm : String) (costs : List CostEntry) (dflt : ℚ) : ℚ :=
  match (costs.filter (fun c => c.name.getD "" = nm)).getLast? with
  | some c => c.priceIncl.getD 0
  | none => dflt

/-- A cost entry with both prices present, for stating claims about valid
interval objects. -/
def mkCost (n : Option String) (pe pi : ℚ) : CostEntry :=
  { name := n, priceExcl := some pe, priceIncl := some pi }

/-- A period sub-object that `_process_price_data` skips: absent, without a
`prices` key, or with an empty `prices` list. -/
def emptyPeriod (pd : Option PriceData) : Prop :=
  pd = none ∨ pd = some { prices := none } ∨ pd = some { prices := some [] }

/-- All ten `next`-period fields of a record are null. -/
def nextFieldsNone (g : GasPriceData) : Prop :=
  g.next_market_price_excl = none ∧ g.next_market_price_incl = none ∧
  g.next_energy_tax_excl = none ∧ g.next_energy_tax_incl = none ∧
  g.next_purchasing_cost_excl = none ∧ g.next_purchasing_cost_incl = none ∧
  g.next_total_price_excl = none ∧ g.next_total_price_incl = none ∧
  g.next_from = none ∧ g.next_till = none

/-- All ten `current`-period fields of a record are null. -/
def currentFieldsNone (g : GasPriceData) : Prop :=
  g.current_market_price_excl = none ∧ g.current_market_price_incl = none ∧
  g.current_energy_tax_excl = none ∧ g.current_energy_tax_incl = none ∧
  g.current_purchasing_cost_excl = none ∧ g.current_purchasing_cost_incl = none ∧
  g.current_total_price_excl = none ∧ g.current_total_price_incl = none ∧
  g.current_from = none ∧ g.current_till = none

/-- Evaluating the `setattr` chain of `_process_price_data` for the
`"current"` period into one functional record update. -/
lemma process_current_eq (pd : Option PriceData) (g : GasPriceData) :
    _process_price_data pd "current" g =
      match pd with
      | none => g
      | some { prices := none } => g
      | some { prices := some [] } => g
      | some { prices := some (price :: _) } =>
        { g with
          current_market_price_excl := round_monetary_value price.energyPriceExcl 2
          current_market_price_incl := round_monetary_value price.energyPriceIncl 2
          current_from := price.fromTime
          current_till := price.till
          current_energy_tax_excl := some (quantize2HalfUp (finalAcc price).energy_tax_excl)
          current_energy_tax_incl := some (quantize2HalfUp (finalAcc price).energy_tax_incl)
          current_purchasing_cost_excl :=
            some (quantize2HalfUp (finalAcc price).purchasing_cost_excl)
          current_purchasing_cost_incl :=
            some (quantize2HalfUp (finalAcc price).purchasing_cost_incl)
          current_total_price_excl := some (quantize2HalfUp (finalAcc price).total_price_excl)
          current_total_price_incl := some (quantize2HalfUp (finalAcc price).total_price_incl) } := by
  rcases pd with _ | ⟨_ | ⟨_ | ⟨price, rest⟩⟩⟩ <;>
    simp [_process_price_data, setMonetaryAttr, setTimestampAttr, round_monetary_value]

/-- Evaluating the `setattr` chain of `_process_price_data` for the
`"next"` period into one functional record update. -/
lemma process_next_eq (pd : Option PriceData) (g : GasPriceData) :
    _process_price_data pd "next" g =
      match pd with
      | none => g
      | some { prices := none } => g
      | some { prices := some [] } => g
      | some { prices := some (price :: _) } =>
        { g with
          next_market_price_excl := round_monetary_value price.energyPriceExcl 2
          next_market_price_incl := round_monetary_value price.energyPriceIncl 2
          next_from := price.fromTime
          next_till := price.till
          next_energy_tax_excl := some (quantize2HalfUp (finalAcc price).energy_tax_excl)
          next_energy_tax_incl := some (quantize2HalfUp (finalAcc price).energy_tax_incl)
          next_purchasing_cost_excl :=
            some (quantize2HalfUp (finalAcc price).purchasing_cost_excl)
          next_purchasing_cost_incl :=
            some (quantize2HalfUp (finalAcc price).purchasing_cost_incl)
          next_total_price_excl := some (quantize2HalfUp (finalAcc price).total_price_excl)
          next_total_price_incl := some (quantize2HalfUp (finalAcc price).total_price_incl) } := by
  rcases pd with _ | ⟨_ | ⟨_ | ⟨price, rest⟩⟩⟩ <;>
    simp [_process_price_data, setMonetaryAttr, setTimestampAttr, round_monetary_value]

/-- `finalAcc` is the fold over the (possibly defaulted) cost list: the
source's emptiness guard around the loop changes nothing. -/
lemma finalAcc_eq_foldl (price : PriceInterval) :
    finalAcc price = (price.additionalCosts.getD []).foldl processCost (initAcc price) := by
  rcases hc : price.additionalCosts with _ | (_ | ⟨c, cs⟩) <;> simp [finalAcc, hc]

/-- One loop iteration adds the entry's `priceExcl` to the excl running
total, whatever the entry's name. -/
lemma processCost_total_excl (acc : CostAcc) (c : CostEntry) :
    (processCost acc c).total_price_excl = acc.total_price_excl + c.priceExcl.getD 0 := by
  unfold processCost
  dsimp only
  split_ifs <;> rfl

/-- One loop iteration adds the entry's `priceIncl` to the incl running
total, whatever the entry's name. -/
lemma processCost_total_incl (acc : CostAcc) (c : CostEntry) :
    (processCost acc c).total_price_incl = acc.total_price_incl + c.priceIncl.getD 0 := by
  unfold processCost
  dsimp only
  split_ifs <;> rfl

/-- The loop leaves the excl running total at its initial value plus the sum
of every entry's `priceExcl`. -/
lemma foldl_total_excl (cs : List CostEntry) (acc : CostAcc) :
    (cs.foldl processCost acc).total_price_excl = acc.total_price_excl + costsExclSum cs := by
  induction cs generalizing acc with
  | nil => simp [costsExclSum]
  | cons c cs ih =>
    rw [List.foldl_cons, ih, processCost_total_excl]
    simp only [costsExclSum, List.map_cons, List.sum_cons]
    ring

/-- The loop leaves the incl running total at its initial value plus the sum
of every entry's `priceIncl`. -/
lemma foldl_total_incl (cs : List CostEntry) (acc : CostAcc) :
    (cs.foldl processCost acc).total_price_incl = acc.total_price_incl + costsInclSum cs := by
  induction cs generalizing acc with
  | nil => simp [costsInclSum]
  | cons c cs ih =>
    rw [List.foldl_cons, ih, processCost_total_incl]
    simp only [costsInclSum, List.map_cons, List.sum_cons]
    ring

/-- Unfolding `lastNamedExcl` over the head of the list: a matching head
becomes the new fallback for the tail. -/
lemma lastNamedExcl_cons (nm : String) (c : CostEntry) (cs : List CostEntry) (dflt : ℚ) :
    lastNamedExcl nm (c :: cs) dflt =
      if c.name.getD "" = nm then lastNamedExcl nm cs (c.priceExcl.getD 0)
      else lastNamedExcl nm cs dflt := by
  by_cases h : c.name.getD "" = nm
  · rw [if_pos h]
    unfold lastNamedExcl
    have hfil : (c :: cs).filter (fun x => decide (x.name.getD "" = nm))
        = c :: cs.filter (fun x => decide (x.name.getD "" = nm)) := by
      rw [List.filter_cons, if_pos (by simp [h])]
    rw [hfil]
    rcases hcons : cs.filter (fun x => decide (x.name.getD "" = nm)) with _ | ⟨e, es⟩
    · rw [hcons]
      rfl
    · rw [hcons, List.getLast?_cons_cons]
      rcases hlast : (e :: es).getLast? with _ | d
      · simp at hlast
      · rfl
  · rw [if_neg h]
    unfold lastNamedExcl
    rw [List.filter_cons, if_neg (by simp [h])]

/-- Unfolding `lastNamedIncl` over the head of the list: a matching head
becomes the new fallback for the tail. -/
lemma lastNamedIncl_cons (nm : String) (c : CostEntry) (cs : List CostEntry) (dflt : ℚ) :
    lastNamedIncl nm (c :: cs) dflt =
      if c.name.getD "" = nm then lastNamedIncl nm cs (c.priceIncl.getD 0)
      else lastNamedIncl nm cs dflt := by
  by_cases h : c.name.getD "" = nm
  · rw [if_pos h]
    unfold lastNamedIncl
    have hfil : (c :: cs).filter (fun x => decide (x.name.getD "" = nm))
        = c :: cs.filter (fun x => decide (x.name.getD "" = nm)) := by
      rw [List.filter_cons, if_pos (by simp [h])]
    rw [hfil]
    rcases hcons : cs.filter (fun x => decide (x.name.getD "" = nm)) with _ | ⟨e, es⟩
    · rw [hcons]
      rfl
    · rw [hcons, List.getLast?_cons_cons]
      rcases hlast : (e :: es).getLast? with _ | d
      · simp at hlast
      · rfl
  · rw [if_neg h]
    unfold lastNamedIncl
    rw [List.filter_cons, if_neg (by simp [h])]

/-- One loop iteration overwrites the excl energy-tax bucket exactly when the
entry is named `"Energy tax"`. -/
lemma processCost_energy_tax_excl (acc : CostAcc) (c : CostEntry) :
    (processCost acc c).energy_tax_excl =
      if c.name.getD "" = "Energy tax" then c.priceExcl.getD 0 else acc.energy_tax_excl := by
  unfold processCost
  dsimp only
  split_ifs <;> first | rfl | (exfalso; simp_all)

/-- One loop iteration overwrites the incl energy-tax bucket exactly when the
entry is named `"Energy tax"`. -/
lemma processCost_energy_tax_incl (acc : CostAcc) (c : CostEntry) :
    (processCost acc c).energy_tax_incl =
      if c.name.getD "" = "Energy tax" then c.priceIncl.getD 0 else acc.energy_tax_incl := by
  unfold processCost
  dsimp only
  split_ifs <;> first | rfl | (exfalso; simp_all)

/-- One loop iteration overwrites the excl purchasing-cost bucket exactly
when the entry is named `"Purchasing cost"`. -/
lemma processCost_purchasing_cost_excl (acc : CostAcc) (c : CostEntry) :
    (processCost acc c).purchasing_cost_excl =
      if c.name.getD "" = "Purchasing cost" then c.priceExcl.getD 0
      else acc.purchasing_cost_excl := by
  unfold processCost
  dsimp only
  split_ifs <;> first | rfl | (exfalso; simp_all)

/-- One loop iteration overwrites the incl purchasing-cost bucket exactly
when the entry is named `"Purchasing cost"`. -/
lemma processCost_purchasing_cost_incl (acc : CostAcc) (c : CostEntry) :
    (processCost acc c).purchasing_cost_incl =
      if c.name.getD "" = "Purchasing cost" then c.priceIncl.getD 0
      else acc.purchasing_cost_incl := by
  unfold processCost
  dsimp only
  split_ifs <;> first | rfl | (exfalso; simp_all)

/-- After the loop the excl energy-tax bucket holds the `priceExcl` of the
last entry named `"Energy tax"`, or its initial value if none matches. -/
lemma foldl_energy_tax_excl (cs : List CostEntry) (acc : CostAcc) :
    (cs.foldl processCost acc).energy_tax_excl =
      lastNamedExcl "Energy tax" cs acc.energy_tax_excl := by
  induction cs generalizing acc with
  | nil => rfl
  | cons c cs ih =>
    rw [List.foldl_cons, ih, lastNamedExcl_cons]
    by_cases h : c.name.getD "" = "Energy tax"
    · rw [if_pos h, processCost_energy_tax_excl, if_pos h]
    · rw [if_neg h, processCost_energy_tax_excl, if_neg h]

/-- After the loop the incl energy-tax bucket holds the `priceIncl` of the
last entry named `"Energy tax"`, or its initial value if none matches. -/
lemma foldl_energy_tax_incl (cs : List CostEntry) (acc : CostAcc) :
    (cs.foldl processCost acc).energy_tax_incl =
      lastNamedIncl "Energy tax" cs acc.energy_tax_incl := by
  induction cs generalizing acc with
  | nil => rfl
  | cons c cs ih =>
    rw [List.foldl_cons, ih, lastNamedIncl_cons]
    by_cases h : c.name.getD "" = "Energy tax"
    · rw [if_pos h, processCost_energy_tax_incl, if_pos h]
    · rw [if_neg h, processCost_energy_tax_incl, if_neg h]

/-- After the loop the excl purchasing-cost bucket holds the `priceExcl` of
the last entry named `"Purchasing cost"`, or its initial value. -/
lemma foldl_purchasing_cost_excl (cs : List CostEntry) (acc : CostAcc) :
    (cs.foldl processCost acc).purchasing_cost_excl =
      lastNamedExcl "Purchasing cost" cs acc.purchasing_cost_excl := by
  induction cs generalizing acc with
  | nil => rfl
  | cons c cs ih =>
    rw [List.foldl_cons, ih, lastNamedExcl_cons]
    by_cases h : c.name.getD "" = "Purchasing cost"
    · rw [if_pos h, processCost_purchasing_cost_excl, if_pos h]
    · rw [if_neg h, processCost_purchasing_cost_excl, if_neg h]

/-- After the loop the incl purchasing-cost bucket holds the `priceIncl` of
the last entry named `"Purchasing cost"`, or its initial value. -/
lemma foldl_purchasing_cost_incl (cs : List CostEntry) (acc : CostAcc) :
    (cs.foldl processCost acc).purchasing_cost_incl =
      lastNamedIncl "Purchasing cost" cs acc.purchasing_cost_incl := by
  induction cs generalizing acc with
  | nil => rfl
  | cons c cs ih =>
    rw [List.foldl_cons, ih, lastNamedIncl_cons]
    by_cases h : c.name.getD "" = "Purchasing cost"
    · rw [if_pos h, processCost_purchasing_cost_incl, if_pos h]
    · rw [if_neg h, processCost_purchasing_cost_incl, if_neg h]

/-- A skipped period (absent sub-object, missing or empty `prices`) leaves
the record untouched. -/
lemma process_empty (pd : Option PriceData) (h : emptyPeriod pd) (period : String)
    (g : GasPriceData) : _process_price_data pd period g = g := by
  rcases h with h | h | h <;> subst h <;> rfl

/-- Processing the `"current"` period writes none of the `next`-period fields
and not `last_updated`. -/
lemma process_current_frame (pd : Option PriceData) (g : GasPriceData) :
    (_process_price_data pd "current" g).next_market_price_excl = g.next_market_price_excl ∧
    (_process_price_data pd "current" g).next_market_price_incl = g.next_market_price_incl ∧
    (_process_price_data pd "current" g).next_energy_tax_excl = g.next_energy_tax_excl ∧
    (_process_price_data pd "current" g).next_energy_tax_incl = g.next_energy_tax_incl ∧
    (_process_price_data pd "current" g).next_purchasing_cost_excl
      = g.next_purchasing_cost_excl ∧
    (_process_price_data pd "current" g).next_purchasing_cost_incl
      = g.next_purchasing_cost_incl ∧
    (_process_price_data pd "current" g).next_total_price_excl = g.next_total_price_excl ∧
    (_process_price_data pd "current" g).next_total_price_incl = g.next_total_price_incl ∧
    (_process_price_data pd "current" g).next_from = g.next_from ∧
    (_process_price_data pd "current" g).next_till = g.next_till ∧
    (_process_price_data pd "current" g).last_updated = g.last_updated := by
  rw [process_current_eq]
  rcases pd with _ | ⟨_ | (_ | ⟨p, r⟩)⟩ <;> simp

/-- Processing the `"next"` period writes none of the `current`-period fields
and not `last_updated`. -/
lemma process_next_frame (pd : Option PriceData) (g : GasPriceData) :
    (_process_price_data pd "next" g).current_market_price_excl
      = g.current_market_price_excl ∧
    (_process_price_data pd "next" g).current_market_price_incl
      = g.current_market_price_incl ∧
    (_process_price_data pd "next" g).current_energy_tax_excl = g.current_energy_tax_excl ∧
    (_process_price_data pd "next" g).current_energy_tax_incl = g.current_energy_tax_incl ∧
    (_process_price_data pd "next" g).current_purchasing_cost_excl
      = g.current_purchasing_cost_excl ∧
    (_process_price_data pd "next" g).current_purchasing_cost_incl
      = g.current_purchasing_cost_incl ∧
    (_process_price_data pd "next" g).current_total_price_excl = g.current_total_price_excl ∧
    (_process_price_data pd "next" g).current_total_price_incl = g.current_total_price_incl ∧
    (_process_price_data pd "next" g).current_from = g.current_from ∧
    (_process_price_data pd "next" g).current_till = g.current_till ∧
    (_process_price_data pd "next" g).last_updated = g.last_updated := by
  rw [process_next_eq]
  rcases pd with _ | ⟨_ | (_ | ⟨p, r⟩)⟩ <;> simp

/-- C3: the shared rounding helper rounds to two decimal places using
round-half-up — `1.005 ↦ 1.01` (not `1.00`), `1.004 ↦ 1.00`,
`0.125 ↦ 0.13` (not `0.12`) — and a null input yields null, never `0.0`. -/
theorem C3_round_half_up :
    round_monetary_value (some (1005 / 1000)) 2 = some (101 / 100) ∧
    round_monetary_value (some (1004 / 1000)) 2 = some 1 ∧
    round_monetary_value (some (125 / 1000)) 2 = some (13 / 100) ∧
    round_monetary_value none 2 = none ∧
    round_monetary_value none 2 ≠ some 0 := by
  refine ⟨?_, ?_, ?_, rfl, by simp [round_monetary_value]⟩ <;>
    · simp only [round_monetary_value, quantize2HalfUp]
      norm_num

/-- C9: `round_monetary_value` returns the same result for every value of
its `decimal_places` parameter as for the default of 2: the parameter is
ignored and the helper always quantizes to exactly two decimal places. -/
theorem C9_decimal_places_ignored (value : Option ℚ) (decimal_places : Nat) :
    round_monetary_value value decimal_places = round_monetary_value value 2 ∧
    round_monetary_value (some (125 / 1000)) 5 = some (13 / 100) ∧
    round_monetary_value (some (125 / 1000)) 0 = some (13 / 100) := by
  refine ⟨rfl, ?_, ?_⟩ <;>
    · simp only [round_monetary_value, quantize2HalfUp]
      norm_num

/-- C2 counterexample: for an interval with market price 0.50 and a single
additional-cost entry named `"Other"` with price 1.00, the reported total is
1.50 while market price + energy tax + purchasing cost is 0.50 + 0 + 0, so
`total_price = market_price + energy_tax + purchasing_cost` fails even before
rounding. -/
theorem C2_counterexample :
    (_process_price_data
        (some { prices := some [{ energyPriceExcl := some (1 / 2),
                                  energyPriceIncl := some (3 / 5),
                                  fromTime := none, till := none,
                                  additionalCosts :=
                                    some [{ name := some "Other",
                                            priceExcl := some 1,
                                            priceIncl := some 1 }] }] })
        "current" {}).current_market_price_excl = some (1 / 2) ∧
    (_process_price_data
        (some { prices := some [{ energyPriceExcl := some (1 / 2),
                                  energyPriceIncl := some (3 / 5),
                                  fromTime := none, till := none,
                                  additionalCosts :=
                                    some [{ name := some "Other",
                                            priceExcl := some 1,
                                            priceIncl := some 1 }] }] })
        "current" {}).current_energy_tax_excl = some 0 ∧
    (_process_price_data
        (some { prices := some [{ energyPriceExcl := some (1 / 2),
                                  energyPriceIncl := some (3 / 5),
                                  fromTime := none, till := none,
                                  additionalCosts :=
                                    some [{ name := some "Other",
                                            priceExcl := some 1,
                                            priceIncl := some 1 }] }] })
        "current" {}).current_purchasing_cost_excl = some 0 ∧
    (_process_price_data
        (some { prices := some [{ energyPriceExcl := some (1 / 2),
                                  energyPriceIncl := some (3 / 5),
                                  fromTime := none, till := none,
                                  additionalCosts :=
                                    some [{ name := some "Other",
                                            priceExcl := some 1,
                                            priceIncl := some 1 }] }] })
        "current" {}).current_total_price_excl = some (3 / 2) ∧
    (3 / 2 : ℚ) ≠ quantize2HalfUp (1 / 2 + 0 + 0) := by
  rw [process_current_eq]
  refine ⟨?_, ?_, ?_, ?_, ?_⟩ <;>
    · simp [finalAcc, initAcc, processCost, round_monetary_value, quantize2HalfUp]
      norm_num

/-- C4: the documented end-to-end scenario — market price 0.50, an
`"Energy tax"` entry 0.10 and a `"Purchasing cost"` entry 0.05 for the
current period, an empty `prices` list for the next period — yields
`current_market_price_excl = 0.50`, `current_energy_tax_excl = 0.10`,
`current_purchasing_cost_excl = 0.05`, `current_total_price_excl = 0.65`,
and every next-period field null. -/
theorem C4_end_to_end_scenario :
    ∃ g, _async_update_data 200 ""
        { errors := none
          data := some
            { current := some { prices := some [
                { energyPriceExcl := some (1 / 2), energyPriceIncl := some (3 / 5),
                  fromTime := some "2024-01-01T00:00:00",
                  till := some "2024-01-02T00:00:00",
                  additionalCosts := some
                    [ { name := some "Energy tax", priceExcl := some (1 / 10),
                        priceIncl := some (3 / 25) },
                      { name := some "Purchasing cost", priceExcl := some (1 / 20),
                        priceIncl := some (3 / 50) } ] } ] }
              next := some { prices := some [] } } }
        "now" = .ok g ∧
      g.current_market_price_excl = some (1 / 2) ∧
      g.current_energy_tax_excl = some (1 / 10) ∧
      g.current_purchasing_cost_excl = some (1 / 20) ∧
      g.current_total_price_excl = some (13 / 20) ∧
      nextFieldsNone g := by
  refine ⟨_process_price_data
      (some { prices := some [
        { energyPriceExcl := some (1 / 2), energyPriceIncl := some (3 / 5),
          fromTime := some "2024-01-01T00:00:00",
          till := some "2024-01-02T00:00:00",
          additionalCosts := some
            [ { name := some "Energy tax", priceExcl := some (1 / 10),
                priceIncl := some (3 / 25) },
              { name := some "Purchasing cost", priceExcl := some (1 / 20),
                priceIncl := some (3 / 50) } ] } ] })
      "current" { last_updated := some "now" }, ?_, ?_, ?_, ?_, ?_, ?_⟩
  · simp only [_async_update_data]
    rw [process_empty (some { prices := some [] }) (Or.inr (Or.inr rfl))]
    norm_num
  all_goals rw [process_current_eq]
  all_goals simp [nextFieldsNone, finalAcc, initAcc, processCost, round_monetary_value,
    quantize2HalfUp]
  all_goals norm_num

/-- C1: for a representative interval with both market prices present and a
non-empty `additionalCosts` list whose entries carry both prices, the
reported `total_price_excl` is the exact sum of `energyPriceExcl` and every
entry's `priceExcl` rounded exactly once at the end (likewise the incl
variant); with `additionalCosts` omitted or empty, `total_price_excl` is
`round(energyPriceExcl)` and equals the reported `market_price_excl`. -/
theorem C1_total_rounded_once (g : GasPriceData) (ex inc : ℚ) (f t : Option String)
    (cs : List (Option String × ℚ × ℚ)) (rest : List PriceInterval) (hcs : cs ≠ []) :
    (let price : PriceInterval :=
      { energyPriceExcl := some ex, energyPriceIncl := some inc, fromTime := f, till := t,
        additionalCosts := some (cs.map (fun c => mkCost c.1 c.2.1 c.2.2)) }
     (_process_price_data (some { prices := some (price :: rest) }) "current"
         g).current_total_price_excl
       = some (quantize2HalfUp
           (ex + costsExclSum (cs.map (fun c => mkCost c.1 c.2.1 c.2.2)))) ∧
     (_process_price_data (some { prices := some (price :: rest) }) "current"
         g).current_total_price_incl
       = some (quantize2HalfUp
           (inc + costsInclSum (cs.map (fun c => mkCost c.1 c.2.1 c.2.2))))) ∧
    (let price0 : PriceInterval :=
      { energyPriceExcl := some ex, energyPriceIncl := some inc, fromTime := f, till := t,
        additionalCosts := none }
     (_process_price_data (some { prices := some (price0 :: rest) }) "current"
         g).current_total_price_excl = some (quantize2HalfUp ex) ∧
     (_process_price_data (some { prices := some (price0 :: rest) }) "current"
         g).current_total_price_excl
       = (_process_price_data (some { prices := some (price0 :: rest) }) "current"
           g).current_market_price_excl) ∧
    (let price1 : PriceInterval :=
      { energyPriceExcl := some ex, energyPriceIncl := some inc, fromTime := f, till := t,
        additionalCosts := some [] }
     (_process_price_data (some { prices := some (price1 :: rest) }) "current"
         g).current_total_price_excl = some (quantize2HalfUp ex) ∧
     (_process_price_data (some { prices := some (price1 :: rest) }) "current"
         g).current_total_price_excl
       = (_process_price_data (some { prices := some (price1 :: rest) }) "current"
           g).current_market_price_excl) := by
  refine ⟨⟨?_, ?_⟩, ⟨?_, ?_⟩, ⟨?_, ?_⟩⟩ <;>
    simp [process_current_eq, finalAcc_eq_foldl, foldl_total_excl, foldl_total_incl,
      initAcc, round_monetary_value]

/-- C5: when an interval's `energyPriceExcl` (resp. `energyPriceIncl`) is
missing, the reported market-price field is null — absence propagates — while
the running total starts from 0, so the total field is still the rounded sum
of the additional-cost entries that are present. -/
theorem C5_missing_market_price (g : GasPriceData) (price : PriceInterval)
    (rest : List PriceInterval) :
    (price.energyPriceExcl = none →
      (_process_price_data (some { prices := some (price :: rest) }) "current"
          g).current_market_price_excl = none ∧
      (_process_price_data (some { prices := some (price :: rest) }) "current"
          g).current_total_price_excl
        = some (quantize2HalfUp (costsExclSum (price.additionalCosts.getD [])))) ∧
    (price.energyPriceIncl = none →
      (_process_price_data (some { prices := some (price :: rest) }) "current"
          g).current_market_price_incl = none ∧
      (_process_price_data (some { prices := some (price :: rest) }) "current"
          g).current_total_price_incl
        = some (quantize2HalfUp (costsInclSum (price.additionalCosts.getD [])))) := by
  constructor
  · intro hE
    rw [process_current_eq]
    constructor
    · simp [round_monetary_value, hE]
    · simp [finalAcc_eq_foldl, foldl_total_excl, initAcc, hE]
  · intro hI
    rw [process_current_eq]
    constructor
    · simp [round_monetary_value, hI]
    · simp [finalAcc_eq_foldl, foldl_total_incl, initAcc, hI]

/-- C5 witness: a concrete interval with both market prices missing and one
"Energy tax" entry of 0.10 — the market fields are null while the totals are
the rounded entry sums. -/
theorem C5_missing_market_price_witness :
    ((_process_price_data
        (some { prices := some [{ energyPriceExcl := none, energyPriceIncl := none,
                                  fromTime := none, till := none,
                                  additionalCosts :=
                                    some [mkCost (some "Energy tax") (1 / 10) (3 / 25)] }] })
        "current" {}).current_market_price_excl = none ∧
     (_process_price_data
        (some { prices := some [{ energyPriceExcl := none, energyPriceIncl := none,
                                  fromTime := none, till := none,
                                  additionalCosts :=
                                    some [mkCost (some "Energy tax") (1 / 10) (3 / 25)] }] })
        "current" {}).current_total_price_excl
       = some (quantize2HalfUp (costsExclSum
           (Option.getD (some [mkCost (some "Energy tax") (1 / 10) (3 / 25)]) [])))) ∧
    ((_process_price_data
        (some { prices := some [{ energyPriceExcl := none, energyPriceIncl := none,
                                  fromTime := none, till := none,
                                  additionalCosts :=
                                    some [mkCost (some "Energy tax") (1 / 10) (3 / 25)] }] })
        "current" {}).current_market_price_incl = none ∧
     (_process_price_data
        (some { prices := some [{ energyPriceExcl := none, energyPriceIncl := none,
                                  fromTime := none, till := none,
                                  additionalCosts :=
                                    some [mkCost (some "Energy tax") (1 / 10) (3 / 25)] }] })
        "current" {}).current_total_price_incl
       = some (quantize2HalfUp (costsInclSum
           (Option.getD (some [mkCost (some "Energy tax") (1 / 10) (3 / 25)]) [])))) :=
  ⟨(C5_missing_market_price {}
      { energyPriceExcl := none, energyPriceIncl := none, fromTime := none, till := none,
        additionalCosts := some [mkCost (some "Energy tax") (1 / 10) (3 / 25)] } []).1 rfl,
   (C5_missing_market_price {}
      { energyPriceExcl := none, energyPriceIncl := none, fromTime := none, till := none,
        additionalCosts := some [mkCost (some "Energy tax") (1 / 10) (3 / 25)] } []).2 rfl⟩

/-- C7: over any `additionalCosts` list, the energy-tax fields are the
rounded prices of the last entry named exactly `"Energy tax"` (0 when none
matches), the purchasing-cost fields likewise for `"Purchasing cost"`, and
every entry — whatever its name, including differently-cased variants, which
populate no bucket — contributes its prices to the rounded totals. -/
theorem C7_bucket_categorization (g : GasPriceData) (ex inc : Option ℚ)
    (f t : Option String) (cs : List CostEntry) (rest : List PriceInterval) :
    (_process_price_data
        (some { prices := some ({ energyPriceExcl := ex, energyPriceIncl := inc, fromTime := f, till := t, additionalCosts := some cs } :: rest) }) "current"
        g).current_energy_tax_excl
      = some (quantize2HalfUp (lastNamedExcl "Energy tax" cs 0)) ∧
    (_process_price_data
        (some { prices := some ({ energyPriceExcl := ex, energyPriceIncl := inc, fromTime := f, till := t, additionalCosts := some cs } :: rest) }) "current"
        g).current_energy_tax_incl
      = some (quantize2HalfUp (lastNamedIncl "Energy tax" cs 0)) ∧
    (_process_price_data
        (some { prices := some ({ energyPriceExcl := ex, energyPriceIncl := inc, fromTime := f, till := t, additionalCosts := some cs } :: rest) }) "current"
        g).current_purchasing_cost_excl
      = some (quantize2HalfUp (lastNamedExcl "Purchasing cost" cs 0)) ∧
    (_process_price_data
        (some { prices := some ({ energyPriceExcl := ex, energyPriceIncl := inc, fromTime := f, till := t, additionalCosts := some cs } :: rest) }) "current"
        g).current_purchasing_cost_incl
      = some (quantize2HalfUp (lastNamedIncl "Purchasing cost" cs 0)) ∧
    (_process_price_data
        (some { prices := some ({ energyPriceExcl := ex, energyPriceIncl := inc, fromTime := f, till := t, additionalCosts := some cs } :: rest) }) "current"
        g).current_total_price_excl
      = some (quantize2HalfUp (ex.getD 0 + costsExclSum cs)) ∧
    (_process_price_data
        (some { prices := some ({ energyPriceExcl := ex, energyPriceIncl := inc, fromTime := f, till := t, additionalCosts := some cs } :: rest) }) "current"
        g).current_total_price_incl
      = some (quantize2HalfUp (inc.getD 0 + costsInclSum cs)) := by
  refine ⟨?_, ?_, ?_, ?_, ?_, ?_⟩ <;>
    simp [process_current_eq, finalAcc_eq_foldl, foldl_total_excl, foldl_total_incl,
      foldl_energy_tax_excl, foldl_energy_tax_incl, foldl_purchasing_cost_excl,
      foldl_purchasing_cost_incl, initAcc]

/-- C1 witness: the non-empty-costs clause instantiated at market price 0.50
with one entry (0.10 / 0.12). -/
theorem C1_total_rounded_once_witness :
    (([((some "Energy tax" : Option String), ((1 : ℚ)/10, (3 : ℚ)/25))] :
        List (Option String × ℚ × ℚ)) ≠ []) ∧
    ((let price : PriceInterval :=
      { energyPriceExcl := some (1 / 2), energyPriceIncl := some (3 / 5),
        fromTime := none, till := none,
        additionalCosts := some
          ([((some "Energy tax" : Option String), ((1 : ℚ)/10, (3 : ℚ)/25))].map
            (fun c => mkCost c.1 c.2.1 c.2.2)) }
     (_process_price_data (some { prices := some (price :: ([] : List PriceInterval)) })
         "current" ({} : GasPriceData)).current_total_price_excl
       = some (quantize2HalfUp
           (1 / 2 + costsExclSum
             ([((some "Energy tax" : Option String), ((1 : ℚ)/10, (3 : ℚ)/25))].map
               (fun c => mkCost c.1 c.2.1 c.2.2)))) ∧
     (_process_price_data (some { prices := some (price :: ([] : List PriceInterval)) })
         "current" ({} : GasPriceData)).current_total_price_incl
       = some (quantize2HalfUp
           (3 / 5 + costsInclSum
             ([((some "Energy tax" : Option String), ((1 : ℚ)/10, (3 : ℚ)/25))].map
               (fun c => mkCost c.1 c.2.1 c.2.2))))) ∧
    (let price0 : PriceInterval :=
      { energyPriceExcl := some (1 / 2), energyPriceIncl := some (3 / 5),
        fromTime := none, till := none, additionalCosts := none }
     (_process_price_data (some { prices := some (price0 :: ([] : List PriceInterval)) })
         "current" ({} : GasPriceData)).current_total_price_excl
       = some (quantize2HalfUp (1 / 2)) ∧
     (_process_price_data (some { prices := some (price0 :: ([] : List PriceInterval)) })
         "current" ({} : GasPriceData)).current_total_price_excl
       = (_process_price_data (some { prices := some (price0 :: ([] : List PriceInterval)) })
           "current" ({} : GasPriceData)).current_market_price_excl) ∧
    (let price1 : PriceInterval :=
      { energyPriceExcl := some (1 / 2), energyPriceIncl := some (3 / 5),
        fromTime := none, till := none, additionalCosts := some [] }
     (_process_price_data (some { prices := some (price1 :: ([] : List PriceInterval)) })
         "current" ({} : GasPriceData)).current_total_price_excl
       = some (quantize2HalfUp (1 / 2)) ∧
     (_process_price_data (some { prices := some (price1 :: ([] : List PriceInterval)) })
         "current" ({} : GasPriceData)).current_total_price_excl
       = (_process_price_data (some { prices := some (price1 :: ([] : List PriceInterval)) })
           "current" ({} : GasPriceData)).current_market_price_excl)) :=
  ⟨by simp,
   C1_total_rounded_once {} (1 / 2) (3 / 5) none none
     [((some "Energy tax" : Option String), ((1 : ℚ)/10, (3 : ℚ)/25))] [] (by simp)⟩

/-- When every entry is named `"Energy tax"` or `"Purchasing cost"` and no
name repeats, the entry sums are exactly the two buckets. -/
lemma sum_eq_buckets (cs : List CostEntry)
    (h1 : ∀ c ∈ cs, c.name.getD "" = "Energy tax" ∨ c.name.getD "" = "Purchasing cost")
    (h2 : (cs.map (fun c => c.name.getD "")).Nodup) :
    costsExclSum cs
      = lastNamedExcl "Energy tax" cs 0 + lastNamedExcl "Purchasing cost" cs 0 ∧
    costsInclSum cs
      = lastNamedIncl "Energy tax" cs 0 + lastNamedIncl "Purchasing cost" cs 0 := by
  match cs with
  | [] => simp [costsExclSum, costsInclSum, lastNamedExcl, lastNamedIncl]
  | [a] =>
    rcases h1 a (by simp) with ha | ha <;>
      · constructor <;>
          · simp [costsExclSum, costsInclSum, lastNamedExcl, lastNamedIncl,
              List.filter_cons, ha]
  | [a, b] =>
    have hne : a.name.getD "" ≠ b.name.getD "" := by
      simp [List.nodup_cons] at h2
      exact h2
    rcases h1 a (by simp) with ha | ha <;> rcases h1 b (by simp) with hb | hb
    · exact absurd (ha.trans hb.symm) hne
    · constructor <;>
        · simp [costsExclSum, costsInclSum, lastNamedExcl, lastNamedIncl,
            List.filter_cons, ha, hb]
    · constructor <;>
        · simp [costsExclSum, costsInclSum, lastNamedExcl, lastNamedIncl,
            List.filter_cons, ha, hb]
          ring
    · exact absurd (ha.trans hb.symm) hne
  | a :: b :: c :: rest =>
    exfalso
    have ha := h1 a (by simp)
    have hb := h1 b (by simp)
    have hc := h1 c (by simp)
    simp only [List.map_cons, List.nodup_cons, List.mem_cons, List.mem_map] at h2
    obtain ⟨hA, hB, _⟩ := h2
    push_neg at hA hB
    rcases ha with h | h <;> rcases hb with h' | h' <;> rcases hc with h'' | h'' <;>
      simp_all

/-- C2 amended: the invariant `total_price = market_price + energy_tax +
purchasing_cost` (exact running sums, each field rounded once independently)
holds for records produced from an interval whose `additionalCosts` entries
are all named `"Energy tax"` or `"Purchasing cost"` with no duplicate name;
an entry with any other name enters the total but no named component, so the
unrestricted identity fails (see the counterexample). -/
theorem C2_sum_invariant (g : GasPriceData) (ex inc : ℚ) (f t : Option String)
    (cs : List CostEntry) (rest : List PriceInterval)
    (h1 : ∀ c ∈ cs, c.name.getD "" = "Energy tax" ∨ c.name.getD "" = "Purchasing cost")
    (h2 : (cs.map (fun c => c.name.getD "")).Nodup) :
    (_process_price_data
        (some { prices := some ({ energyPriceExcl := some ex, energyPriceIncl := some inc, fromTime := f, till := t, additionalCosts := some cs } :: rest) }) "current"
        g).current_total_price_excl
      = some (quantize2HalfUp
          (ex + lastNamedExcl "Energy tax" cs 0 + lastNamedExcl "Purchasing cost" cs 0)) ∧
    (_process_price_data
        (some { prices := some ({ energyPriceExcl := some ex, energyPriceIncl := some inc, fromTime := f, till := t, additionalCosts := some cs } :: rest) }) "current"
        g).current_market_price_excl = some (quantize2HalfUp ex) ∧
    (_process_price_data
        (some { prices := some ({ energyPriceExcl := some ex, energyPriceIncl := some inc, fromTime := f, till := t, additionalCosts := some cs } :: rest) }) "current"
        g).current_energy_tax_excl
      = some (quantize2HalfUp (lastNamedExcl "Energy tax" cs 0)) ∧
    (_process_price_data
        (some { prices := some ({ energyPriceExcl := some ex, energyPriceIncl := some inc, fromTime := f, till := t, additionalCosts := some cs } :: rest) }) "current"
        g).current_purchasing_cost_excl
      = some (quantize2HalfUp (lastNamedExcl "Purchasing cost" cs 0)) ∧
    (_process_price_data
        (some { prices := some ({ energyPriceExcl := some ex, energyPriceIncl := some inc, fromTime := f, till := t, additionalCosts := some cs } :: rest) }) "current"
        g).current_total_price_incl
      = some (quantize2HalfUp
          (inc + lastNamedIncl "Energy tax" cs 0 + lastNamedIncl "Purchasing cost" cs 0)) ∧
    (_process_price_data
        (some { prices := some ({ energyPriceExcl := some ex, energyPriceIncl := some inc, fromTime := f, till := t, additionalCosts := some cs } :: rest) }) "current"
        g).current_market_price_incl = some (quantize2HalfUp inc) ∧
    (_process_price_data
        (some { prices := some ({ energyPriceExcl := some ex, energyPriceIncl := some inc, fromTime := f, till := t, additionalCosts := some cs } :: rest) }) "current"
        g).current_energy_tax_incl
      = some (quantize2HalfUp (lastNamedIncl "Energy tax" cs 0)) ∧
    (_process_price_data
        (some { prices := some ({ energyPriceExcl := some ex, energyPriceIncl := some inc, fromTime := f, till := t, additionalCosts := some cs } :: rest) }) "current"
        g).current_purchasing_cost_incl
      = some (quantize2HalfUp (lastNamedIncl "Purchasing cost" cs 0)) := by
  obtain ⟨hsx, hsi⟩ := sum_eq_buckets cs h1 h2
  refine ⟨?_, ?_, ?_, ?_, ?_, ?_, ?_, ?_⟩ <;>
    · simp [process_current_eq, finalAcc_eq_foldl, foldl_total_excl, foldl_total_incl,
        foldl_energy_tax_excl, foldl_energy_tax_incl, foldl_purchasing_cost_excl,
        foldl_purchasing_cost_incl, initAcc, round_monetary_value, hsx, hsi]
      try ring_nf

/-- C2 witness: the amended invariant instantiated at market price 0.50 with
one `"Energy tax"` entry (0.10) and one `"Purchasing cost"` entry (0.05). -/
theorem C2_sum_invariant_witness :
    (∀ c ∈ [mkCost (some "Energy tax") (1 / 10) (3 / 25),
            mkCost (some "Purchasing cost") (1 / 20) (3 / 50)],
       c.name.getD "" = "Energy tax" ∨ c.name.getD "" = "Purchasing cost") ∧
    (([mkCost (some "Energy tax") (1 / 10) (3 / 25),
       mkCost (some "Purchasing cost") (1 / 20) (3 / 50)].map
        (fun c => c.name.getD "")).Nodup) ∧
    (_process_price_data
        (some { prices := some ({ energyPriceExcl := some (1 / 2), energyPriceIncl := some (3 / 5), fromTime := none, till := none, additionalCosts := some [mkCost (some "Energy tax") (1 / 10) (3 / 25), mkCost (some "Purchasing cost") (1 / 20) (3 / 50)] } :: ([] : List PriceInterval)) }) "current"
        ({} : GasPriceData)).current_total_price_excl
      = some (quantize2HalfUp
          ((1 : ℚ) / 2
            + lastNamedExcl "Energy tax"
                [mkCost (some "Energy tax") (1 / 10) (3 / 25),
                 mkCost (some "Purchasing cost") (1 / 20) (3 / 50)] 0
            + lastNamedExcl "Purchasing cost"
                [mkCost (some "Energy tax") (1 / 10) (3 / 25),
                 mkCost (some "Purchasing cost") (1 / 20) (3 / 50)] 0)) :=
  ⟨by decide, by decide,
   (C2_sum_invariant {} (1 / 2) (3 / 5) none none
      [mkCost (some "Energy tax") (1 / 10) (3 / 25),
       mkCost (some "Purchasing cost") (1 / 20) (3 / 50)] []
      (by decide) (by decide)).1⟩

/-- C6: a refresh whose response has one period absent, without a `prices`
key, or with an empty `prices` list still succeeds; every field of that
period stays null and the other period's fields are exactly those produced
from that other period's data. -/
theorem C6_empty_period_is_not_fatal (present deg : Option PriceData)
    (text now : String) (h : emptyPeriod deg) :
    (_async_update_data 200 text
        { errors := none, data := some { current := present, next := deg } } now
      = .ok (_process_price_data present "current" { last_updated := some now })) ∧
    nextFieldsNone (_process_price_data present "current" { last_updated := some now }) ∧
    (_async_update_data 200 text
        { errors := none, data := some { current := deg, next := present } } now
      = .ok (_process_price_data present "next" { last_updated := some now })) ∧
    currentFieldsNone (_process_price_data present "next" { last_updated := some now }) := by
  refine ⟨?_, ?_, ?_, ?_⟩
  · simp [_async_update_data, process_empty deg h]
  · obtain ⟨a1, a2, a3, a4, a5, a6, a7, a8, a9, a10, -⟩ :=
      process_current_frame present { last_updated := some now }
    exact ⟨a1, a2, a3, a4, a5, a6, a7, a8, a9, a10⟩
  · simp [_async_update_data, process_empty deg h]
  · obtain ⟨a1, a2, a3, a4, a5, a6, a7, a8, a9, a10, -⟩ :=
      process_next_frame present { last_updated := some now }
    exact ⟨a1, a2, a3, a4, a5, a6, a7, a8, a9, a10⟩

/-- C6 witness: both periods degenerate (`current` populated from `null`
data, `next` absent): the refresh returns a record with every period field
null. -/
theorem C6_empty_period_witness :
    (_async_update_data 200 ""
        { errors := none, data := some { current := none, next := none } } "t"
      = .ok (_process_price_data none "current" { last_updated := some "t" })) ∧
    nextFieldsNone (_process_price_data none "current" { last_updated := some "t" }) ∧
    (_async_update_data 200 ""
        { errors := none, data := some { current := none, next := none } } "t"
      = .ok (_process_price_data none "next" { last_updated := some "t" })) ∧
    currentFieldsNone (_process_price_data none "next" { last_updated := some "t" }) :=
  C6_empty_period_is_not_fatal none none "" "t" (Or.inl rfl)

/-- C8 counterexample: two non-200 responses that differ only in their body
text raise the very same error value, whose message carries the status code
alone — the raised transport error does not carry the response body (the
body is only logged). -/
theorem C8_body_not_carried_counterexample :
    _async_update_data 500 "body A" { errors := none, data := none } "now"
      = _async_update_data 500 "body B" { errors := none, data := none } "now" ∧
    _async_update_data 500 "body A" { errors := none, data := none } "now"
      = .error (.fetchError 500) ∧
    ("body A" : String) ≠ "body B" ∧
    (UpdateError.fetchError 500).message = "Error fetching gas prices: 500" :=
  ⟨rfl, rfl, by decide, rfl⟩

/-- C8 amended: the refresh fails under exactly three terminal conditions
checked in order — a non-200 status raises a transport error carrying the
status code (the response body is logged, not attached to the raised error);
a body with a top-level `errors` field raises a GraphQL error carrying the
error list, even though the status is 200; a body with no top-level `data`
field raises a malformed-response error. -/
theorem C8_terminal_conditions (status : Nat) (text : String) (body : ResponseBody)
    (now : String) :
    ((∃ e, _async_update_data status text body now = .error e)
       ↔ (status ≠ 200 ∨ body.errors ≠ none ∨ body.data = none)) ∧
    (status ≠ 200 →
      _async_update_data status text body now = .error (.fetchError status)) ∧
    (∀ errs, status = 200 → body.errors = some errs →
      _async_update_data status text body now = .error (.graphQLErrors errs)) ∧
    (status = 200 → body.errors = none → body.data = none →
      _async_update_data status text body now = .error .noData) := by
  have hfetch : status ≠ 200 →
      _async_update_data status text body now = .error (.fetchError status) := by
    intro hs
    unfold _async_update_data
    rw [if_pos hs]
  have hgql : ∀ errs, status = 200 → body.errors = some errs →
      _async_update_data status text body now = .error (.graphQLErrors errs) := by
    intro errs hs herr
    unfold _async_update_data
    rw [if_neg (by simp [hs]), herr]
  have hnodata : status = 200 → body.errors = none → body.data = none →
      _async_update_data status text body now = .error .noData := by
    intro hs herr hdata
    unfold _async_update_data
    rw [if_neg (by simp [hs]), herr, hdata]
  refine ⟨⟨?_, ?_⟩, hfetch, hgql, hnodata⟩
  · rintro ⟨e, he⟩
    by_contra hcon
    push_neg at hcon
    obtain ⟨hs, herr, hdata⟩ := hcon
    rcases hd : body.data with _ | d
    · exact hdata hd
    · unfold _async_update_data at he
      rw [if_neg (by simp [hs]), herr, hd] at he
      simp at he
  · rintro (hs | herr | hdata)
    · exact ⟨_, hfetch hs⟩
    · rcases he : body.errors with _ | errs
      · exact absurd he herr
      · by_cases hs : status = 200
        · exact ⟨_, hgql errs hs he⟩
        · exact ⟨_, hfetch hs⟩
    · by_cases hs : status = 200
      · rcases he : body.errors with _ | errs
        · exact ⟨_, hnodata hs he hdata⟩
        · exact ⟨_, hgql errs hs he⟩
      · exact ⟨_, hfetch hs⟩

/-- C8 witness: each of the three terminal conditions triggered at a
concrete input. -/
theorem C8_terminal_conditions_witness :
    _async_update_data 500 "" { errors := some "boom", data := none } ""
      = .error (.fetchError 500) ∧
    _async_update_data 200 "" { errors := some "boom", data := none } ""
      = .error (.graphQLErrors "boom") ∧
    _async_update_data 200 "" { errors := none, data := none } ""
      = .error .noData :=
  ⟨(C8_terminal_conditions 500 "" { errors := some "boom", data := none } "").2.1
     (by decide),
   (C8_terminal_conditions 200 "" { errors := some "boom", data := none } "").2.2.1
     "boom" rfl rfl,
   (C8_terminal_conditions 200 "" { errors := none, data := none } "").2.2.2
     rfl rfl rfl⟩

/-- C10: processing one period's price data writes only that period's
fields — for every input, the other period's ten fields and the shared
`last_updated` field are unchanged. -/
theorem C10_period_frame (pd : Option PriceData) (g : GasPriceData) :
    ((_process_price_data pd "current" g).next_market_price_excl
        = g.next_market_price_excl ∧
     (_process_price_data pd "current" g).next_market_price_incl
        = g.next_market_price_incl ∧
     (_process_price_data pd "current" g).next_energy_tax_excl = g.next_energy_tax_excl ∧
     (_process_price_data pd "current" g).next_energy_tax_incl = g.next_energy_tax_incl ∧
     (_process_price_data pd "current" g).next_purchasing_cost_excl
        = g.next_purchasing_cost_excl ∧
     (_process_price_data pd "current" g).next_purchasing_cost_incl
        = g.next_purchasing_cost_incl ∧
     (_process_price_data pd "current" g).next_total_price_excl
        = g.next_total_price_excl ∧
     (_process_price_data pd "current" g).next_total_price_incl
        = g.next_total_price_incl ∧
     (_process_price_data pd "current" g).next_from = g.next_from ∧
     (_process_price_data pd "current" g).next_till = g.next_till ∧
     (_process_price_data pd "current" g).last_updated = g.last_updated) ∧
    ((_process_price_data pd "next" g).current_market_price_excl
        = g.current_market_price_excl ∧
     (_process_price_data pd "next" g).current_market_price_incl
        = g.current_market_price_incl ∧
     (_process_price_data pd "next" g).current_energy_tax_excl
        = g.current_energy_tax_excl ∧
     (_process_price_data pd "next" g).current_energy_tax_incl
        = g.current_energy_tax_incl ∧
     (_process_price_data pd "next" g).current_purchasing_cost_excl
        = g.current_purchasing_cost_excl ∧
     (_process_price_data pd "next" g).current_purchasing_cost_incl
        = g.current_purchasing_cost_incl ∧
     (_process_price_data pd "next" g).current_total_price_excl
        = g.current_total_price_excl ∧
     (_process_price_data pd "next" g).current_total_price_incl
        = g.current_total_price_incl ∧
     (_process_price_data pd "next" g).current_from = g.current_from ∧
     (_process_price_data pd "next" g).current_till = g.current_till ∧
     (_process_price_data pd "next" g).last_updated = g.last_updated) :=
  ⟨process_current_frame pd g, process_next_frame pd g⟩

end EnergyZero
